import Mathlib

/-!
Shallow embedding of the work-log-synchronizer reconciliation engine.

The development models two code paths of the repository:

- the export engine (src/clockify_export/export.py together with
  src/clockify_export/config.py and src/clockify_export/clockify/models.py),
  which normalizes raw time entries into local time, resolves the mapping,
  merges back-to-back entries and detects overlaps; and
- the push engine (src/work_log_sync/sync/engine.py together with
  src/work_log_sync/config.py and src/work_log_sync/sync/mapper.py),
  which classifies every entry as synced, skipped, failed or unmapped
  while avoiding duplicate creation at the destination.

Modelling conventions: Python dictionaries become association lists looked up
with List.lookup (first match); Python value truthiness is modelled explicitly
(PyVal for dynamically typed mapping values, falsiness of optional strings);
external collaborators (timezone database, interactive prompt, destination
creation call) are function parameters; float hours are modelled as exact
rationals; string comparison is lexicographic on code points, as in Python.
-/

/-- A dynamically typed Python value as it occurs in the push-mode mapping
dictionaries (bamboo_project_id and friends can be ints, strings, None or a
bool skip flag). -/
inductive PyVal where
  | pyNone : PyVal
  | pyBool : Bool → PyVal
  | pyInt : Int → PyVal
  | pyStr : String → PyVal
deriving DecidableEq

/-- Python truthiness of a PyVal. -/
def pyTruthy : PyVal → Bool
  | .pyNone => false
  | .pyBool b => b
  | .pyInt n => n != 0
  | .pyStr s => s != ""

/-- Python str() applied to a PyVal. -/
def pyToString : PyVal → String
  | .pyNone => "None"
  | .pyBool b => if b then "True" else "False"
  | .pyInt n => toString n
  | .pyStr s => s

/-- Truthiness of an optional string: Python treats None and the empty string
as falsy. -/
def strOptFalsy : Option String → Bool
  | none => true
  | some s => s == ""

/-- A calendar date (datetime.date). -/
structure Date where
  year : Nat
  month : Nat
  day : Nat
deriving DecidableEq

/-- Strict comparison of dates, lexicographic on (year, month, day), as
Python compares date objects. -/
def Date.ltB (a b : Date) : Bool :=
  decide (a.year < b.year) ||
    (a.year == b.year &&
      (decide (a.month < b.month) || (a.month == b.month && decide (a.day < b.day))))

/-- Zero-pad a natural number to two digits, as strftime and isoformat do. -/
def pad2 (n : Nat) : String :=
  if n < 10 then "0" ++ toString n else toString n

/-- Zero-pad a year to four digits, as date.isoformat does. -/
def pad4 (n : Nat) : String :=
  if n < 10 then "000" ++ toString n
  else if n < 100 then "00" ++ toString n
  else if n < 1000 then "0" ++ toString n
  else toString n

/-- ISO representation YYYY-MM-DD of a date, as str(date) produces. -/
def Date.toIso (d : Date) : String :=
  pad4 d.year ++ "-" ++ pad2 d.month ++ "-" ++ pad2 d.day

/-- A wall-clock datetime (datetime.datetime), split into calendar and time
fields so that the sub-minute rounding of the source can be stated on the
second field exactly as the code reads it. -/
structure DateTime where
  year : Nat
  month : Nat
  day : Nat
  hour : Nat
  minute : Nat
  second : Nat
  microsecond : Nat
deriving DecidableEq

/-- The date part of a datetime (datetime.date()). -/
def DateTime.toDate (dt : DateTime) : Date :=
  ⟨dt.year, dt.month, dt.day⟩

/-- Gregorian leap-year rule, as datetime uses. -/
def isLeapYear (y : Nat) : Bool :=
  (y % 4 == 0 && y % 100 != 0) || y % 400 == 0

/-- Days in a Gregorian month. -/
def daysInMonth (y m : Nat) : Nat :=
  if m == 2 then (if isLeapYear y then 29 else 28)
  else if m == 4 || m == 6 || m == 9 || m == 11 then 30
  else 31

/-- Clear the sub-minute fields of a datetime
(dt.replace(second=0, microsecond=0)). -/
def DateTime.clearSub (dt : DateTime) : DateTime :=
  { dt with second := 0, microsecond := 0 }

/-- Add one minute to a datetime with calendar carry
(dt + timedelta(minutes=1)). -/
def DateTime.addOneMinute (dt : DateTime) : DateTime :=
  if dt.minute + 1 < 60 then { dt with minute := dt.minute + 1 }
  else if dt.hour + 1 < 24 then { dt with minute := 0, hour := dt.hour + 1 }
  else if dt.day + 1 ≤ daysInMonth dt.year dt.month then
    { dt with minute := 0, hour := 0, day := dt.day + 1 }
  else if dt.month + 1 ≤ 12 then
    { dt with minute := 0, hour := 0, day := 1, month := dt.month + 1 }
  else
    { dt with minute := 0, hour := 0, day := 1, month := 1, year := dt.year + 1 }

/-- Format a datetime as HH:MM (strftime with the hour and minute fields). -/
def fmtHM (dt : DateTime) : String :=
  pad2 dt.hour ++ ":" ++ pad2 dt.minute

/-- Lexicographic strict comparison of character lists by code point; this is
how Python compares strings. -/
def charListLt : List Char → List Char → Bool
  | [], [] => false
  | [], _ :: _ => true
  | _ :: _, [] => false
  | a :: as, b :: bs =>
    if a.toNat < b.toNat then true
    else if b.toNat < a.toNat then false
    else charListLt as bs

/-- Strict string comparison by code points (the Python < on str). -/
def strLtB (a b : String) : Bool :=
  charListLt a.data b.data

/-- Non-strict string comparison (the Python <= on str). -/
def strLeB (a b : String) : Bool :=
  !(strLtB b a)

/-- Bool-valued chain predicate: every consecutive pair of the list headed by
the first argument satisfies the relation. -/
def chainB {α : Type} (f : α → α → Bool) : α → List α → Bool
  | _, [] => true
  | a, b :: l => f a b && chainB f b l

namespace ClockifyExport

/-- Rounding to the nearest minute, from round_to_minute in
src/clockify_export/clockify/models.py: clear the sub-minute fields and add
one minute exactly when the second field is at least 30. -/
def round_to_minute (dt : DateTime) : DateTime :=
  if 30 ≤ dt.second then (dt.clearSub).addOneMinute
  else dt.clearSub

/-- One configured mapping entry, from MappingEntry in
src/clockify_export/config.py. -/
structure MappingEntry where
  clockify_project : String
  clockify_task : Option String
  bamboo_project_id : Int
  bamboo_task_id : Option Int
deriving DecidableEq

/-- The mapping configuration: the in-memory list of entries held by
MappingConfig in src/clockify_export/config.py. -/
structure MappingConfig where
  entries : List MappingEntry
deriving DecidableEq

/-- Exact-match predicate used by the lookup loops of MappingConfig.find. -/
def exactMatch (p : String) (t : Option String) (e : MappingEntry) : Bool :=
  e.clockify_project == p && e.clockify_task == t

/-- MappingConfig.find from src/clockify_export/config.py: first loop returns
the first exact (project, task) match; otherwise, when the task is not None,
a second loop returns the first project-level entry (task None); otherwise
None. -/
def MappingConfig.find (cfg : MappingConfig) (p : String) (t : Option String) :
    Option MappingEntry :=
  match cfg.entries.find? (exactMatch p t) with
  | some e => some e
  | none =>
    if t.isSome then cfg.entries.find? (exactMatch p none)
    else none

/-- A raw Clockify time entry as the export engine consumes it, from
ClockifyTimeEntry in src/clockify_export/clockify/models.py. The UTC start
and optional UTC end model the parsed timeInterval timestamps; a missing end
(end_utc = none) is a running timer. -/
structure ClockifyTimeEntry where
  id : String
  description : Option String
  project_id : Option String
  task_id : Option String
  start_utc : DateTime
  end_utc : Option DateTime
deriving DecidableEq

/-- local_start_time from src/clockify_export/clockify/models.py: convert the
UTC start instant with the timezone collaborator, then round to the nearest
minute. The tz parameter models astimezone for the resolved IANA zone. -/
def ClockifyTimeEntry.local_start_time (e : ClockifyTimeEntry)
    (tz : DateTime → DateTime) : DateTime :=
  round_to_minute (tz e.start_utc)

/-- local_end_time from src/clockify_export/clockify/models.py. -/
def ClockifyTimeEntry.local_end_time (e : ClockifyTimeEntry)
    (tz : DateTime → DateTime) : Option DateTime :=
  match e.end_utc with
  | none => none
  | some dt => some (round_to_minute (tz dt))

/-- An export-ready entry, from ExportEntry in src/clockify_export/export.py. -/
structure ExportEntry where
  date : Date
  start : String
  «end» : String
  note : String
  project_id : Int
  task_id : Option Int
deriving DecidableEq

/-- The aggregate result, from ExportResult in src/clockify_export/export.py. -/
structure ExportResult where
  entries : List ExportEntry
  warnings : List String
  unmapped : List String
deriving DecidableEq

/-- Note concatenation on merge: the two notes joined with a semicolon
separator, skipping empty notes, from the combined_note computation in
_merge_adjacent. -/
def joinNotes (a b : String) : String :=
  if a == "" then b
  else if b == "" then a
  else a ++ "; " ++ b

/-- The merge condition of _merge_adjacent: same date, previous end equal to
candidate start, same destination project and same destination task. -/
def canMerge (prev e : ExportEntry) : Bool :=
  prev.date == e.date && prev.«end» == e.start &&
    prev.project_id == e.project_id && prev.task_id == e.task_id

/-- The merged entry built by _merge_adjacent: previous date and start kept,
candidate end adopted, notes joined, destination ids kept. -/
def mergeTwo (prev e : ExportEntry) : ExportEntry :=
  { date := prev.date
    start := prev.start
    «end» := e.«end»
    note := joinNotes prev.note e.note
    project_id := prev.project_id
    task_id := prev.task_id }

/-- The scanning loop of _merge_adjacent, with the committed output prefix
implicit and the mutable last output entry made explicit as the first
argument. -/
def mergeLoop (last : ExportEntry) : List ExportEntry → List ExportEntry
  | [] => [last]
  | e :: rest =>
    if canMerge last e then mergeLoop (mergeTwo last e) rest
    else last :: mergeLoop e rest

/-- _merge_adjacent from src/clockify_export/export.py. -/
def mergeAdjacent : List ExportEntry → List ExportEntry
  | [] => []
  | e :: rest => mergeLoop e rest

/-- The collapsed entry for a run of mergeable entries: first start and date,
last end, notes joined in order. -/
def runCollapse (e : ExportEntry) (rest : List ExportEntry) : ExportEntry :=
  { e with
    «end» := (rest.getLastD e).«end»
    note := rest.foldl (fun acc x => joinNotes acc x.note) e.note }

/-- The overlap test of _detect_overlaps: same date and the two half-open
windows intersect (a.start < b.end and b.start < a.end, compared as strings). -/
def overlapB (a b : ExportEntry) : Bool :=
  a.date == b.date && strLtB a.start b.«end» && strLtB b.start a.«end»

/-- The warning string of _detect_overlaps. -/
def overlapWarning (a b : ExportEntry) : String :=
  "Overlap on " ++ a.date.toIso ++ ": " ++ a.start ++ "-" ++ a.«end» ++
    " and " ++ b.start ++ "-" ++ b.«end»

/-- _detect_overlaps from src/clockify_export/export.py: the nested index
loops visit every pair with i < j in order, skipping pairs on different dates
and warning on overlapping windows. -/
def detectOverlaps : List ExportEntry → List String
  | [] => []
  | a :: rest =>
    rest.filterMap (fun b => if overlapB a b then some (overlapWarning a b) else none)
      ++ detectOverlaps rest

/-- All ordered index pairs i < j of a list, each unordered pair exactly
once. -/
def listPairs {α : Type} : List α → List (α × α)
  | [] => []
  | a :: rest => rest.map (fun b => (a, b)) ++ listPairs rest

/-- The sort key comparison of build_export: nondecreasing in (date, start),
dates compared as dates and starts as strings, matching the Python tuple key
(e.date, e.start). -/
def keyLe (a b : ExportEntry) : Bool :=
  Date.ltB a.date b.date || (a.date == b.date && strLeB a.start b.start)

/-- Propositional form of keyLe. -/
def keyLeP (a b : ExportEntry) : Prop :=
  keyLe a b = true

/-- Insert an entry before the first element it compares at-most-equal to. -/
def orderedInsert (a : ExportEntry) : List ExportEntry → List ExportEntry
  | [] => [a]
  | b :: l => if keyLe a b then a :: b :: l else b :: orderedInsert a l

/-- The stable sort of build_export (converted.sort with key (date, start)):
modelled by insertion sort, which is the stable sort for this total
preorder, as the Python sort is. -/
def sortEntries : List ExportEntry → List ExportEntry
  | [] => []
  | a :: l => orderedInsert a (sortEntries l)

/-- The unmapped key used when the project name is missing or unknown:
the note when truthy, else the raw entry id. -/
def descOrId (e : ClockifyTimeEntry) : String :=
  match e.description with
  | some s => if s == "" then e.id else s
  | none => e.id

/-- The per-entry body of the conversion loop of build_export in
src/clockify_export/export.py, acting on the pair (converted, unmapped) of
accumulated lists: drop running timers silently, record a missing or unknown
project name as unmapped with the no-project key, record a missing mapping as
unmapped with the project or project:task key, and otherwise emit the
normalized entry in local rounded time. -/
def convertStep (project_names task_names : List (String × String))
    (mapping : MappingConfig) (tz : DateTime → DateTime)
    (acc : List ExportEntry × List String) (entry : ClockifyTimeEntry) :
    List ExportEntry × List String :=
  match entry.end_utc with
  | none => acc
  | some endUtc =>
    let project_name := (project_names.lookup ((entry.project_id).getD "")).getD ""
    let task_name : Option String :=
      match entry.task_id with
      | some t => if t == "" then none else task_names.lookup t
      | none => none
    if project_name == "" then
      (acc.1, acc.2 ++ ["(no project) - " ++ descOrId entry])
    else
      match mapping.find project_name task_name with
      | none =>
        let key :=
          match task_name with
          | some t => if t == "" then project_name else project_name ++ ":" ++ t
          | none => project_name
        (acc.1, acc.2 ++ [key])
      | some me =>
        let localStart := round_to_minute (tz entry.start_utc)
        let localEnd := round_to_minute (tz endUtc)
        (acc.1 ++
          [{ date := localStart.toDate
             start := fmtHM localStart
             «end» := fmtHM localEnd
             note := (entry.description).getD ""
             project_id := me.bamboo_project_id
             task_id := me.bamboo_task_id }],
          acc.2)

/-- build_export from src/clockify_export/export.py: convert each raw entry,
sort by (date, start), merge back-to-back entries, detect overlaps, and
return the merged entries together with the warnings and the unmapped keys. -/
def build_export (time_entries : List ClockifyTimeEntry)
    (project_names task_names : List (String × String))
    (mapping : MappingConfig) (tz : DateTime → DateTime) : ExportResult :=
  let acc := time_entries.foldl (convertStep project_names task_names mapping tz) ([], [])
  let merged := mergeAdjacent (sortEntries acc.1)
  { entries := merged
    warnings := detectOverlaps merged
    unmapped := acc.2 }

end ClockifyExport

namespace WorkLogSync

/-- A push-mode mapping value: one loosely typed dictionary from the projects
section of the configuration (keys like bamboo_project_id, bamboo_task_id,
bamboo_name, skip), modelled as an association list of its items so that
dictionary truthiness (non-emptiness) is preserved. -/
abbrev PMapDict := List (String × PyVal)

/-- dict.get with an explicit default. -/
def dictGetD (d : PMapDict) (k : String) (v : PyVal) : PyVal :=
  match d.lookup k with
  | some x => x
  | none => v

/-- dict.get with the implicit None default. -/
def dictGet (d : PMapDict) (k : String) : PyVal :=
  dictGetD d k PyVal.pyNone

/-- Set a key in a string-keyed dictionary: replace in place when present,
append otherwise, as Python dict assignment behaves. -/
def dictSet (d : List (String × PMapDict)) (k : String) (v : PMapDict) :
    List (String × PMapDict) :=
  if (d.lookup k).isSome then
    d.map (fun p => if p.1 == k then (k, v) else p)
  else d ++ [(k, v)]

/-- Truthiness of an optional dictionary: Python treats None and the empty
dictionary as falsy. -/
def optFalsy (m : Option PMapDict) : Bool :=
  match m with
  | none => true
  | some d => d.isEmpty

/-- The push-mode configuration, from Config in src/work_log_sync/config.py:
the projects section of the loaded mapping, keyed by the flat Clockify
project or project:task key. -/
structure Config where
  projects : List (String × PMapDict)
deriving DecidableEq

/-- Config.get_mapping_for from src/work_log_sync/config.py: a single flat
dictionary lookup of the given key. -/
def Config.get_mapping_for (cfg : Config) (key : String) : Option PMapDict :=
  cfg.projects.lookup key

/-- Config.update_mapping from src/work_log_sync/config.py: store the mapping
under the key (the model keeps only the in-memory state; persistence is a
collaborator effect). -/
def Config.update_mapping (cfg : Config) (key : String) (m : PMapDict) : Config :=
  ⟨dictSet cfg.projects key m⟩

/-- Config.should_skip from src/work_log_sync/config.py: truthiness of
mapping and mapping.get(skip, False) when the key is mapped, False
otherwise. -/
def Config.should_skip (cfg : Config) (key : String) : Bool :=
  match cfg.get_mapping_for key with
  | some m => !m.isEmpty && pyTruthy (dictGetD m "skip" (PyVal.pyBool false))
  | none => false

/-- TaskMapper.get_unmapped_key from src/work_log_sync/sync/mapper.py:
project:task when the task name is truthy, the bare project name
otherwise. -/
def get_unmapped_key (projectName : String) (taskName : Option String) : String :=
  match taskName with
  | some t => if t == "" then projectName else projectName ++ ":" ++ t
  | none => projectName

/-- A Clockify time entry as the push engine consumes it, from
ClockifyTimeEntry in src/work_log_sync/clockify/models.py. start_date models
the value of entry.start_time.date(), has_end models whether
entry.end_time is not None (a running timer has no end), and duration_hours
models the value of the duration_hours property, as an exact rational. -/
structure ClockifyTimeEntry where
  id : String
  description : Option String
  project_id : Option String
  task_id : Option String
  start_date : Date
  has_end : Bool
  duration_hours : ℚ
deriving DecidableEq

/-- The task-name synthesis of _sync_entry: task_ followed by the task id
when the task id is truthy, no task name otherwise. -/
def taskNameOf (e : ClockifyTimeEntry) : Option String :=
  match e.task_id with
  | some t => if t == "" then none else some ("task_" ++ t)
  | none => none

/-- A BambooHR timesheet entry, from BambooTimeEntry in
src/work_log_sync/bamboohr/models.py. The pydantic model types employee_id,
project_id and task_id as int | str — required and not nullable — so every
value of this type that the program actually constructs (whether parsed from
the API or built by the engine) carries int-or-str ids; the engine-side
construction with its validation is modelled by mkBambooTimeEntry below. -/
structure BambooTimeEntry where
  employee_id : PyVal
  date : Date
  hours : ℚ
  project_id : PyVal
  task_id : PyVal
  notes : String
deriving DecidableEq

/-- Pydantic acceptance of the int | str union used for the BambooTimeEntry
id fields: ints and strings validate; None and bools are rejected. -/
def intOrStr : PyVal → Bool
  | .pyInt _ => true
  | .pyStr _ => true
  | .pyNone => false
  | .pyBool _ => false

/-- The message recorded when BambooTimeEntry construction raises
ValidationError; the exact wording of str(ValidationError) is abstracted. -/
def validationErrorMsg : String :=
  "validation error for BambooTimeEntry"

/-- BambooTimeEntry construction as the pydantic model performs it: the
employee, project and task ids must each be an int or a str (the fields are
not nullable), otherwise construction raises ValidationError — in
particular it raises for the None task id stored by a project-only
mapping. -/
def mkBambooTimeEntry (employee_id : PyVal) (date : Date) (hours : ℚ)
    (project_id task_id : PyVal) (notes : String) :
    Except String BambooTimeEntry :=
  if intOrStr employee_id && intOrStr project_id && intOrStr task_id then
    .ok ⟨employee_id, date, hours, project_id, task_id, notes⟩
  else
    .error validationErrorMsg

/-- A duplicate-detection key (date, project id, task id, hours), the tuple
shape used by SyncEngine.sync and _sync_entry. -/
abbrev DupKey := Date × PyVal × PyVal × ℚ

/-- The existing-keys snapshot built by SyncEngine.sync from the fetched
destination entries: ids are passed through str() before keying. -/
def mkExistingKeys (entries : List BambooTimeEntry) : List DupKey :=
  entries.map (fun e =>
    (e.date, PyVal.pyStr (pyToString e.project_id), PyVal.pyStr (pyToString e.task_id), e.hours))

/-- The per-run result accumulator, from SyncResult in
src/work_log_sync/sync/engine.py. -/
structure SyncResult where
  entries_synced : Nat
  entries_skipped : Nat
  entries_failed : Nat
  unmapped_entries : List String
  errors : List String
deriving DecidableEq

/-- SyncResult.add_success. -/
def SyncResult.add_success (r : SyncResult) : SyncResult :=
  { r with entries_synced := r.entries_synced + 1 }

/-- SyncResult.add_skip. -/
def SyncResult.add_skip (r : SyncResult) : SyncResult :=
  { r with entries_skipped := r.entries_skipped + 1 }

/-- SyncResult.add_failure. -/
def SyncResult.add_failure (r : SyncResult) (e : String) : SyncResult :=
  { r with entries_failed := r.entries_failed + 1, errors := r.errors ++ [e] }

/-- SyncResult.add_unmapped. -/
def SyncResult.add_unmapped (r : SyncResult) (k : String) : SyncResult :=
  { r with unmapped_entries := r.unmapped_entries ++ [k] }

/-- The fresh result at the start of a run. -/
def SyncResult.empty : SyncResult :=
  ⟨0, 0, 0, [], []⟩

/-- The mutable state threaded through the per-entry loop of
SyncEngine.sync: the configuration (mutated by interactive mapping saves),
the in-memory duplicate-key set, and the result accumulator. -/
structure SyncState where
  cfg : Config
  existing : List DupKey
  result : SyncResult
deriving DecidableEq

/-- The tail of _sync_entry after the interactive-mapping section, from the
check not mapping or should_skip down to the creation call: resolve the
destination ids from the mapping dictionary, suppress duplicates against the
existing-keys set, construct the destination entry, and otherwise create
(dry-run succeeds without creating; a creation failure is recorded against
the entry). The BambooTimeEntry construction happens before the dry-run
check and can raise ValidationError (mkBambooTimeEntry): the raise escapes
_sync_entry and is caught by the per-entry except in SyncEngine.sync, which
records the entry failed — the model returns that failed state directly.
The create parameter is the destination collaborator call, returning the
failure message of a raised exception on the error side. -/
def syncEntryCont (create : BambooTimeEntry → Except String Unit)
    (employee_id : PyVal) (dry_run : Bool)
    (st : SyncState) (entry : ClockifyTimeEntry) (mappingKey : String)
    (mapping : Option PMapDict) : SyncState :=
  if optFalsy mapping || st.cfg.should_skip mappingKey then
    { st with result := st.result.add_unmapped mappingKey }
  else
    let m := mapping.getD []
    let bambooProjectId := dictGet m "bamboo_project_id"
    if !pyTruthy bambooProjectId then
      { st with result := st.result.add_unmapped mappingKey }
    else
      let bambooTaskId := dictGet m "bamboo_task_id"
      let entryDate := entry.start_date
      let durationHours := entry.duration_hours
      let duplicateKey : DupKey := (entryDate, bambooProjectId, bambooTaskId, durationHours)
      if duplicateKey ∈ st.existing then
        { st with result := st.result.add_skip }
      else
        let notes := (entry.description).getD ""
        match mkBambooTimeEntry employee_id entryDate durationHours
            bambooProjectId bambooTaskId notes with
        | .error msg => { st with result := st.result.add_failure msg }
        | .ok bambooEntry =>
          if dry_run then
            { st with result := st.result.add_success }
          else
            match create bambooEntry with
            | .ok _ =>
              { st with
                  existing := duplicateKey :: st.existing
                  result := st.result.add_success }
            | .error msg => { st with result := st.result.add_failure msg }

/-- _sync_entry from src/work_log_sync/sync/engine.py: skip entries with a
falsy project id or an unknown project, skip configured skips, prompt for a
mapping when unmapped and interactive (saving a truthy answer into the
configuration), record unmapped outcomes, and hand over to the duplicate and
creation tail. The prompt parameter models the interactive collaborator
prompt_for_mapping. -/
def sync_entry (prompt : String → Option PMapDict)
    (create : BambooTimeEntry → Except String Unit)
    (employee_id : PyVal) (project_map : List (String × String))
    (dry_run interactive : Bool)
    (st : SyncState) (entry : ClockifyTimeEntry) : SyncState :=
  if strOptFalsy entry.project_id then
    { st with result := st.result.add_skip }
  else
    match project_map.lookup ((entry.project_id).getD "") with
    | none => { st with result := st.result.add_skip }
    | some projectName =>
      let mappingKey := get_unmapped_key projectName (taskNameOf entry)
      if st.cfg.should_skip mappingKey then
        { st with result := st.result.add_skip }
      else
        let m0 := st.cfg.get_mapping_for mappingKey
        if optFalsy m0 && interactive then
          match prompt mappingKey with
          | some pm =>
            if pm.isEmpty then
              { st with result := st.result.add_unmapped mappingKey }
            else
              syncEntryCont create employee_id dry_run
                { st with cfg := st.cfg.update_mapping mappingKey pm }
                entry mappingKey (some pm)
          | none => { st with result := st.result.add_unmapped mappingKey }
        else
          syncEntryCont create employee_id dry_run st entry mappingKey m0

/-- The per-entry loop of SyncEngine.sync (the for loop over the fetched
Clockify entries): every entry is processed in order and the state is
threaded through. -/
def sync_loop (prompt : String → Option PMapDict)
    (create : BambooTimeEntry → Except String Unit)
    (employee_id : PyVal) (project_map : List (String × String))
    (dry_run interactive : Bool)
    (st : SyncState) (entries : List ClockifyTimeEntry) : SyncState :=
  entries.foldl (sync_entry prompt create employee_id project_map dry_run interactive) st

/-- The number of terminal outcomes recorded in a result: synced plus skipped
plus failed plus the length of the unmapped list. -/
def outcomeCount (r : SyncResult) : Nat :=
  r.entries_synced + r.entries_skipped + r.entries_failed + r.unmapped_entries.length

end WorkLogSync
open ClockifyExport WorkLogSync

def c1A : ExportEntry := ⟨⟨2026, 2, 25⟩, "08:00", "09:00", "A", 10, some 24⟩

def c1B : ExportEntry := ⟨⟨2026, 2, 25⟩, "09:00", "10:30", "B", 10, some 24⟩

def c1C : ExportEntry := ⟨⟨2026, 2, 25⟩, "10:30", "12:00", "C", 10, some 24⟩

theorem canMerge_iff (prev e : ExportEntry) :
    canMerge prev e = true ↔
      (prev.date = e.date ∧ prev.project_id = e.project_id ∧
        prev.task_id = e.task_id ∧ prev.«end» = e.start) := by
  simp only [canMerge, Bool.and_eq_true, beq_iff_eq]
  tauto

theorem canMerge_mergeTwo {prev e : ExportEntry} (h : canMerge prev e = true)
    (x : ExportEntry) : canMerge (mergeTwo prev e) x = canMerge e x := by
  obtain ⟨hd, hp, ht, _⟩ := (canMerge_iff prev e).1 h
  simp [canMerge, mergeTwo, hd, hp, ht]

theorem chainB_mergeTwo {prev e : ExportEntry} (h : canMerge prev e = true)
    (l : List ExportEntry) :
    chainB canMerge (mergeTwo prev e) l = chainB canMerge e l := by
  cases l with
  | nil => rfl
  | cons b r => simp [chainB, canMerge_mergeTwo h]

theorem mergeLoop_chain_collapse :
    ∀ (rest : List ExportEntry) (e : ExportEntry), chainB canMerge e rest = true →
      mergeLoop e rest = [runCollapse e rest] := by
  intro rest
  induction rest with
  | nil =>
    intro e _
    simp [mergeLoop, runCollapse]
  | cons b r ih =>
    intro e h
    rw [chainB, Bool.and_eq_true] at h
    obtain ⟨h1, h2⟩ := h
    rw [mergeLoop, if_pos h1, ih (mergeTwo e b) ((chainB_mergeTwo h1 r).trans h2)]
    congr 1
    cases r with
    | nil => simp [runCollapse, mergeTwo, List.getLastD]
    | cons c r2 => simp [runCollapse, mergeTwo, List.getLastD]

/-- C1: the merge step of _merge_adjacent combines an entry into the
immediately preceding output entry exactly when both share the date, the
destination project id and the destination task id and the previous end
equals the candidate start; on merge the previous start is kept, the
candidate end adopted and the notes joined with a semicolon separator
skipping empty notes; a run of contiguous mergeable entries collapses into
one entry spanning the first start to the last end with notes joined in
order; entries with differing destination project or task never combine. -/
theorem C1_merge_step_and_runs :
    (∀ prev e : ExportEntry, canMerge prev e = true ↔
        (prev.date = e.date ∧ prev.project_id = e.project_id ∧
          prev.task_id = e.task_id ∧ prev.«end» = e.start))
    ∧ (∀ (last e : ExportEntry) (rest : List ExportEntry),
        mergeLoop last (e :: rest) =
          if canMerge last e then mergeLoop (mergeTwo last e) rest
          else last :: mergeLoop e rest)
    ∧ (∀ prev e : ExportEntry, mergeTwo prev e =
        ⟨prev.date, prev.start, e.«end», joinNotes prev.note e.note,
          prev.project_id, prev.task_id⟩)
    ∧ (∀ (e : ExportEntry) (rest : List ExportEntry), chainB canMerge e rest = true →
        mergeAdjacent (e :: rest) = [runCollapse e rest])
    ∧ (∀ prev e : ExportEntry,
        prev.project_id ≠ e.project_id ∨ prev.task_id ≠ e.task_id →
          canMerge prev e = false) := by
  refine ⟨canMerge_iff, fun last e rest => rfl, fun prev e => rfl,
    fun e rest h => mergeLoop_chain_collapse rest e h, fun prev e h => ?_⟩
  rcases Bool.eq_false_or_eq_true (canMerge prev e) with ht | hf
  · obtain ⟨_, hp, htk, _⟩ := (canMerge_iff prev e).1 ht
    rcases h with h | h
    · exact absurd hp h
    · exact absurd htk h
  · exact hf

/-- Witness for C1 at a concrete three-entry run of touching
same-destination entries, plus a non-merge at a differing project id. -/
theorem C1_witness :
    mergeAdjacent [c1A, c1B, c1C] = [runCollapse c1A [c1B, c1C]] ∧
      canMerge c1A ⟨⟨2026, 2, 25⟩, "09:00", "10:30", "B", 11, some 24⟩ = false :=
  ⟨C1_merge_step_and_runs.2.2.2.1 c1A [c1B, c1C] (by decide),
    C1_merge_step_and_runs.2.2.2.2 c1A ⟨⟨2026, 2, 25⟩, "09:00", "10:30", "B", 11, some 24⟩
      (Or.inl (by decide))⟩

theorem filterMapIf {α β : Type} (p : α → Bool) (w : α → β) :
    ∀ l : List α,
      l.filterMap (fun b => if p b then some (w b) else none) = (l.filter p).map w := by
  intro l
  induction l with
  | nil => rfl
  | cons a t ih =>
    by_cases h : p a <;> simp [List.filterMap_cons, List.filter_cons, h, ih]

theorem detectOverlaps_eq_pairs (es : List ExportEntry) :
    detectOverlaps es =
      ((listPairs es).filter (fun p => overlapB p.1 p.2)).map
        (fun p => overlapWarning p.1 p.2) := by
  induction es with
  | nil => rfl
  | cons a rest ih =>
    rw [detectOverlaps, ih, listPairs, List.filter_append, List.map_append]
    congr 1
    rw [filterMapIf, List.filter_map, List.map_map]
    rfl

theorem charListLt_irrefl : ∀ l : List Char, charListLt l l = false := by
  intro l
  induction l with
  | nil => rfl
  | cons a t ih => simp [charListLt, ih]

theorem strLtB_irrefl (s : String) : strLtB s s = false :=
  charListLt_irrefl s.data

theorem overlapB_touching_left (a b : ExportEntry) (h : a.«end» = b.start) :
    overlapB a b = false := by
  rw [overlapB, h, strLtB_irrefl, Bool.and_false]

theorem overlapB_touching_right (a b : ExportEntry) (h : b.«end» = a.start) :
    overlapB a b = false := by
  rw [overlapB, h, strLtB_irrefl, Bool.and_false, Bool.false_and]

theorem overlapB_symm (a b : ExportEntry) : overlapB a b = overlapB b a := by
  unfold overlapB
  have hd : (a.date == b.date) = (b.date == a.date) := by
    by_cases h : a.date = b.date
    · rw [h]
    · rw [beq_eq_false_iff_ne.mpr h, beq_eq_false_iff_ne.mpr (Ne.symm h)]
  rw [hd]
  generalize strLtB a.start b.«end» = x
  generalize strLtB b.start a.«end» = y
  generalize (b.date == a.date) = d
  cases d <;> cases x <;> cases y <;> rfl

/-- C6: after merging, _detect_overlaps emits exactly one warning per ordered
index pair on the same date whose half-open windows intersect
(a.start < b.end and b.start < a.end), with the warning text naming the date
and both windows; the overlap test is symmetric; touching entries (one end
equal to the other start) never produce a warning; and the entries returned
by build_export are exactly the merged list, unmodified by overlap
detection, with the warnings computed from that same list. -/
theorem C6_overlap_detection :
    (∀ es : List ExportEntry,
        detectOverlaps es =
          ((listPairs es).filter (fun p => overlapB p.1 p.2)).map
            (fun p => overlapWarning p.1 p.2))
    ∧ (∀ a b : ExportEntry, overlapB a b =
        (a.date == b.date && strLtB a.start b.«end» && strLtB b.start a.«end»))
    ∧ (∀ a b : ExportEntry, overlapWarning a b =
        "Overlap on " ++ a.date.toIso ++ ": " ++ a.start ++ "-" ++ a.«end» ++
          " and " ++ b.start ++ "-" ++ b.«end»)
    ∧ (∀ a b : ExportEntry, overlapB a b = overlapB b a)
    ∧ (∀ a b : ExportEntry, a.«end» = b.start ∨ b.«end» = a.start →
        overlapB a b = false)
    ∧ (∀ tes pn tn mp tz, (build_export tes pn tn mp tz).warnings =
        detectOverlaps (build_export tes pn tn mp tz).entries) := by
  refine ⟨detectOverlaps_eq_pairs, fun a b => rfl, fun a b => rfl, overlapB_symm,
    fun a b h => ?_, fun tes pn tn mp tz => rfl⟩
  rcases h with h | h
  · exact overlapB_touching_left a b h
  · exact overlapB_touching_right a b h

/-- Witness for C6: the touching pair 08:00-10:00 and 10:00-12:00 produces no
warning. -/
theorem C6_witness :
    overlapB ⟨⟨2026, 2, 25⟩, "08:00", "10:00", "x", 10, none⟩
      ⟨⟨2026, 2, 25⟩, "10:00", "12:00", "y", 11, none⟩ = false :=
  C6_overlap_detection.2.2.2.2.1 ⟨⟨2026, 2, 25⟩, "08:00", "10:00", "x", 10, none⟩
    ⟨⟨2026, 2, 25⟩, "10:00", "12:00", "y", 11, none⟩ (Or.inl (by decide))

/-- C7: the local wall-clock time of a normalized entry is obtained by first
converting the UTC instant with the timezone collaborator (astimezone) and
then rounding to the nearest minute; rounding clears the sub-minute fields
and adds one minute exactly when the second field is at least 30, with the
carry propagating through hour and day boundaries, so 09:59:30 becomes
10:00:00 and 23:59:30 rolls over to the next day. -/
theorem C7_convert_then_round :
    (∀ (tz : DateTime → DateTime) (e : ClockifyExport.ClockifyTimeEntry),
        e.local_start_time tz = round_to_minute (tz e.start_utc))
    ∧ (∀ (tz : DateTime → DateTime) (e : ClockifyExport.ClockifyTimeEntry)
        (dt : DateTime), e.end_utc = some dt →
          e.local_end_time tz = some (round_to_minute (tz dt)))
    ∧ (∀ dt : DateTime, dt.second < 30 → round_to_minute dt = dt.clearSub)
    ∧ (∀ dt : DateTime, 30 ≤ dt.second →
        round_to_minute dt = (dt.clearSub).addOneMinute)
    ∧ round_to_minute ⟨2026, 2, 25, 9, 59, 30, 0⟩ = ⟨2026, 2, 25, 10, 0, 0, 0⟩
    ∧ round_to_minute ⟨2026, 2, 25, 23, 59, 30, 0⟩ = ⟨2026, 2, 26, 0, 0, 0, 0⟩ := by
  refine ⟨fun tz e => rfl, fun tz e dt h => ?_, fun dt h => ?_, fun dt h => ?_,
    by decide, by decide⟩
  · rw [ClockifyExport.ClockifyTimeEntry.local_end_time, h]
  · rw [round_to_minute, if_neg (by omega)]
  · rw [round_to_minute, if_pos h]

/-- Witness for C7: both rounding directions at the 30-second boundary on
concrete datetimes. -/
theorem C7_witness :
    round_to_minute ⟨2026, 2, 25, 9, 30, 29, 0⟩ =
        DateTime.clearSub ⟨2026, 2, 25, 9, 30, 29, 0⟩ ∧
      round_to_minute ⟨2026, 2, 25, 9, 30, 30, 0⟩ =
        (DateTime.clearSub ⟨2026, 2, 25, 9, 30, 30, 0⟩).addOneMinute :=
  ⟨C7_convert_then_round.2.2.1 ⟨2026, 2, 25, 9, 30, 29, 0⟩ (by decide),
    C7_convert_then_round.2.2.2.1 ⟨2026, 2, 25, 9, 30, 30, 0⟩ (by decide)⟩

def c2Map : PMapDict := [("bamboo_project_id", PyVal.pyStr "10")]

def c2Cfg : Config := ⟨[("P", c2Map)]⟩

def c2Entry : WorkLogSync.ClockifyTimeEntry :=
  ⟨"e1", some "Work", some "p1", some "t1", ⟨2026, 2, 25⟩, true, 2⟩

theorem find_exact_wins (cfg : MappingConfig) (p : String) (t : Option String)
    (h : ∃ e ∈ cfg.entries, exactMatch p t e = true) :
    ∃ me, cfg.find p t = some me ∧ me.clockify_project = p ∧ me.clockify_task = t := by
  obtain ⟨me, hfind⟩ := Option.isSome_iff_exists.mp (List.find?_isSome.mpr h)
  have hp := List.find?_some hfind
  rw [exactMatch, Bool.and_eq_true, beq_iff_eq, beq_iff_eq] at hp
  refine ⟨me, ?_, hp.1, hp.2⟩
  rw [MappingConfig.find, hfind]

/-- Counterexample to C2: in the push-mode path a project-level mapping for
project P exists, but the lookup of the task-qualified key P:task_t1 is a
flat dictionary access and returns nothing, so the claimed project-level
fallback does not happen and the entry is recorded as unmapped. -/
theorem C2_counterexample :
    c2Cfg.get_mapping_for (get_unmapped_key "P" (some "task_t1")) = none ∧
      c2Cfg.get_mapping_for "P" = some c2Map ∧
      (sync_entry (fun _ => none) (fun _ => .ok ()) (PyVal.pyInt 0) [("p1", "P")]
          false false ⟨c2Cfg, [], SyncResult.empty⟩ c2Entry).result.unmapped_entries =
        ["P:task_t1"] := by
  refine ⟨by decide, by decide, by decide⟩

/-- C2 amended: in the export-mode path, MappingConfig.find returns an exact
(project, task) match whenever one exists (so an exact match always wins over
the project-level fallback when both exist); when no exact match exists and
the task is not None it falls back to the first project-level (task None)
entry; when no exact match exists and the task is None it returns none. In
the push-mode path, Config.get_mapping_for performs only a flat lookup of
the exact key, with no project-level fallback. -/
theorem C2_two_tier_lookup :
    (∀ (cfg : MappingConfig) (p : String) (t : Option String),
        (∃ e ∈ cfg.entries, exactMatch p t e = true) →
          ∃ me, cfg.find p t = some me ∧ me.clockify_project = p ∧
            me.clockify_task = t)
    ∧ (∀ (cfg : MappingConfig) (p : String) (t : Option String),
        cfg.entries.find? (exactMatch p t) = none → t.isSome →
          cfg.find p t = cfg.entries.find? (exactMatch p none))
    ∧ (∀ (cfg : MappingConfig) (p : String),
        cfg.entries.find? (exactMatch p none) = none → cfg.find p none = none)
    ∧ (∀ (cfg : Config) (key : String),
        cfg.get_mapping_for key = cfg.projects.lookup key) := by
  refine ⟨find_exact_wins, fun cfg p t hnone ht => ?_, fun cfg p hnone => ?_,
    fun cfg key => rfl⟩
  · rw [MappingConfig.find, hnone, if_pos ht]
  · rw [MappingConfig.find, hnone]
    simp

def c2XCfg : MappingConfig :=
  ⟨[⟨"Project Alpha", none, 5, none⟩, ⟨"Project Alpha", some "Development", 10, some 24⟩]⟩

/-- Witness for C2 amended: with both a project-level entry and an exact
task entry configured, the exact entry wins even though the project-level
entry comes first. -/
theorem C2_witness :
    ∃ me, c2XCfg.find "Project Alpha" (some "Development") = some me ∧
      me.clockify_project = "Project Alpha" ∧ me.clockify_task = some "Development" :=
  C2_two_tier_lookup.1 c2XCfg "Project Alpha" (some "Development")
    ⟨⟨"Project Alpha", some "Development", 10, some 24⟩, by decide, by decide⟩

def c5Run : WorkLogSync.ClockifyTimeEntry :=
  ⟨"e1", none, some "p1", none, ⟨2026, 2, 25⟩, false, 2⟩

def c5RunX : ClockifyExport.ClockifyTimeEntry :=
  ⟨"e1", some "Work", some "p1", some "t1", ⟨2026, 2, 25, 8, 0, 0, 0⟩, none⟩

def c5Cfg : Config :=
  ⟨[("P", [("bamboo_project_id", PyVal.pyStr "10"),
      ("bamboo_task_id", PyVal.pyStr "24")])]⟩

/-- Counterexample to C5: in push mode a raw entry with no end time (a
running timer) is not excluded; with no mapping configured it lands in the
unmapped list, and with a complete mapping configured (project and task ids
both present, so the destination entry validates) it is created and counted
as synced. -/
theorem C5_counterexample :
    (sync_entry (fun _ => none) (fun _ => .ok ()) (PyVal.pyInt 0) [("p1", "P")]
        false false ⟨⟨[]⟩, [], SyncResult.empty⟩ c5Run).result.unmapped_entries = ["P"] ∧
      (sync_entry (fun _ => none) (fun _ => .ok ()) (PyVal.pyInt 0) [("p1", "P")]
        false false ⟨c5Cfg, [], SyncResult.empty⟩ c5Run).result.entries_synced = 1 := by
  refine ⟨by decide, by decide⟩

theorem convertStep_running (pn tn : List (String × String)) (mp : MappingConfig)
    (tz : DateTime → DateTime) (acc : List ExportEntry × List String)
    (e : ClockifyExport.ClockifyTimeEntry) (h : e.end_utc = none) :
    convertStep pn tn mp tz acc e = acc := by
  rw [convertStep, h]

/-- C5 amended: a raw entry with no end time is excluded entirely in export
mode — the conversion step leaves both the converted list and the unmapped
list unchanged, so removing it from the input batch leaves the whole export
result unchanged — while the push-mode engine never inspects the end time
and processes a running timer exactly like the same entry with an end. -/
theorem C5_running_timers :
    (∀ pn tn mp tz acc (e : ClockifyExport.ClockifyTimeEntry), e.end_utc = none →
        convertStep pn tn mp tz acc e = acc)
    ∧ (∀ pn tn mp tz (pre post : List ClockifyExport.ClockifyTimeEntry)
        (e : ClockifyExport.ClockifyTimeEntry), e.end_utc = none →
          build_export (pre ++ e :: post) pn tn mp tz =
            build_export (pre ++ post) pn tn mp tz)
    ∧ (∀ prompt create emp pmap d i st (e : WorkLogSync.ClockifyTimeEntry) (b : Bool),
        sync_entry prompt create emp pmap d i st e =
          sync_entry prompt create emp pmap d i st { e with has_end := b }) := by
  refine ⟨convertStep_running, fun pn tn mp tz pre post e h => ?_,
    fun prompt create emp pmap d i st e b => ?_⟩
  · simp only [build_export]
    rw [List.foldl_append, List.foldl_cons, convertStep_running pn tn mp tz _ e h,
      ← List.foldl_append]
  · cases e
    rfl

/-- Witness for C5 amended: a concrete running timer contributes nothing to
a concrete export. -/
theorem C5_witness :
    build_export ([] ++ c5RunX :: []) [("p1", "Project Alpha")] [("t1", "Development")]
        c2XCfg (fun dt => dt) =
      build_export ([] ++ []) [("p1", "Project Alpha")] [("t1", "Development")]
        c2XCfg (fun dt => dt) :=
  C5_running_timers.2.1 [("p1", "Project Alpha")] [("t1", "Development")] c2XCfg
    (fun dt => dt) [] [] c5RunX (by decide)
def c8NoProj : WorkLogSync.ClockifyTimeEntry :=
  ⟨"e9", some "Note", none, none, ⟨2026, 2, 25⟩, true, 1⟩

def c8NoProjX : ClockifyExport.ClockifyTimeEntry :=
  ⟨"e9", some "Note", none, none, ⟨2026, 2, 25, 8, 0, 0, 0⟩,
    some ⟨2026, 2, 25, 9, 0, 0, 0⟩⟩

/-- Counterexample to C8: in the push-mode engine an entry with no project id
(or an unknown one) is counted as skipped and no unmapped record with the
no-project key is produced. -/
theorem C8_counterexample :
    (sync_entry (fun _ => none) (fun _ => .ok ()) (PyVal.pyInt 0) [] false true
        ⟨⟨[]⟩, [], SyncResult.empty⟩ c8NoProj).result.entries_skipped = 1 ∧
      (sync_entry (fun _ => none) (fun _ => .ok ()) (PyVal.pyInt 0) [] false true
        ⟨⟨[]⟩, [], SyncResult.empty⟩ c8NoProj).result.unmapped_entries = [] := by
  refine ⟨by decide, by decide⟩

/-- C8 amended: in the export-mode converter an entry (with an end time)
whose project id is absent or unknown to the name lookup is recorded as
unmapped with the key "(no project) - " followed by the note or the raw id,
and contributes nothing to the converted entries; in the push-mode engine
the same condition instead counts the entry as skipped, leaving the
unmapped list untouched. -/
theorem C8_no_project_handling :
    (∀ pn tn mp tz acc (e : ClockifyExport.ClockifyTimeEntry) (endUtc : DateTime),
        e.end_utc = some endUtc →
        (pn.lookup ((e.project_id).getD "")).getD "" = "" →
          convertStep pn tn mp tz acc e =
            (acc.1, acc.2 ++ ["(no project) - " ++ descOrId e]))
    ∧ (∀ prompt create emp pmap d i st (e : WorkLogSync.ClockifyTimeEntry),
        strOptFalsy e.project_id = true ∨ pmap.lookup ((e.project_id).getD "") = none →
          sync_entry prompt create emp pmap d i st e =
            { st with result := st.result.add_skip }) := by
  constructor
  · intro pn tn mp tz acc e endUtc h h2
    rw [convertStep, h]
    simp only [h2]
    rfl
  · intro prompt create emp pmap d i st e h
    by_cases hf : strOptFalsy e.project_id = true
    · rw [sync_entry, if_pos hf]
    · rcases h with h | h
      · exact absurd h hf
      · rw [sync_entry, if_neg hf, h]

/-- Witness for C8 amended: concrete no-project entries in both modes. -/
theorem C8_witness :
    convertStep [] [] c2XCfg (fun dt => dt) ([], []) c8NoProjX =
        (([] : List ExportEntry), [] ++ ["(no project) - " ++ descOrId c8NoProjX]) ∧
      sync_entry (fun _ => none) (fun _ => .ok ()) (PyVal.pyInt 0) [] false true
          ⟨⟨[]⟩, [], SyncResult.empty⟩ c8NoProj =
        { cfg := ⟨[]⟩, existing := [], result := SyncResult.empty.add_skip } :=
  ⟨C8_no_project_handling.1 [] [] c2XCfg (fun dt => dt) ([], []) c8NoProjX
      ⟨2026, 2, 25, 9, 0, 0, 0⟩ (by decide) (by decide),
    C8_no_project_handling.2 (fun _ => none) (fun _ => .ok ()) (PyVal.pyInt 0) []
      false true ⟨⟨[]⟩, [], SyncResult.empty⟩ c8NoProj (Or.inl (by decide))⟩
def c9Prompt : String → Option PMapDict :=
  fun _ => some [("bamboo_project_id", PyVal.pyStr "10")]

/-- Counterexample to C9: in push mode with interactive prompting, a mapping
supplied at the prompt for an unmapped entry is saved into the configuration
during the run, so the mapping entries after the run differ from the mapping
entries at the start. -/
theorem C9_counterexample :
    (sync_entry c9Prompt (fun _ => .ok ()) (PyVal.pyInt 0) [("p1", "P")] false true
        ⟨⟨[]⟩, [], SyncResult.empty⟩ c2Entry).cfg ≠ (⟨[]⟩ : Config) := by
  decide

theorem syncEntryCont_cfg (create : BambooTimeEntry → Except String Unit)
    (emp : PyVal) (d : Bool) (st : SyncState) (e : WorkLogSync.ClockifyTimeEntry)
    (k : String) (m : Option PMapDict) :
    (syncEntryCont create emp d st e k m).cfg = st.cfg := by
  simp only [syncEntryCont]
  repeat' split
  all_goals rfl

theorem sync_entry_cfg_noninteractive (prompt : String → Option PMapDict)
    (create : BambooTimeEntry → Except String Unit) (emp : PyVal)
    (pmap : List (String × String)) (d : Bool) (st : SyncState)
    (e : WorkLogSync.ClockifyTimeEntry) :
    (sync_entry prompt create emp pmap d false st e).cfg = st.cfg := by
  simp only [sync_entry, Bool.and_false, Bool.false_eq_true, if_false]
  repeat' split
  all_goals first | rfl | apply syncEntryCont_cfg

theorem sync_entry_cfg_prompt_none (prompt : String → Option PMapDict)
    (create : BambooTimeEntry → Except String Unit) (emp : PyVal)
    (pmap : List (String × String)) (d i : Bool) (st : SyncState)
    (e : WorkLogSync.ClockifyTimeEntry) (hp : ∀ k, prompt k = none) :
    (sync_entry prompt create emp pmap d i st e).cfg = st.cfg := by
  simp only [sync_entry, hp]
  repeat' split
  all_goals first | rfl | apply syncEntryCont_cfg

theorem sync_loop_cfg_of_entry (prompt : String → Option PMapDict)
    (create : BambooTimeEntry → Except String Unit) (emp : PyVal)
    (pmap : List (String × String)) (d i : Bool)
    (h : ∀ st e, (sync_entry prompt create emp pmap d i st e).cfg = st.cfg) :
    ∀ (es : List WorkLogSync.ClockifyTimeEntry) (st : SyncState),
      (sync_loop prompt create emp pmap d i st es).cfg = st.cfg := by
  intro es
  induction es with
  | nil => intro st; rfl
  | cons e t ih =>
    intro st
    have : sync_loop prompt create emp pmap d i st (e :: t) =
        sync_loop prompt create emp pmap d i
          (sync_entry prompt create emp pmap d i st e) t := rfl
    rw [this, ih, h]

/-- C9 amended: during one run the push engine leaves the mapping
configuration unchanged whenever interactive prompting is disabled, and also
whenever no prompt supplies a mapping; only an interactive prompt answer is
saved into the configuration mid-run. (The export-mode converter only calls
the pure lookup MappingConfig.find and has no write path at all.) -/
theorem C9_mapping_read_only :
    (∀ prompt create emp pmap d st es,
        (sync_loop prompt create emp pmap d false st es).cfg = st.cfg)
    ∧ (∀ prompt create emp pmap d i st es, (∀ k, prompt k = none) →
        (sync_loop prompt create emp pmap d i st es).cfg = st.cfg) := by
  constructor
  · intro prompt create emp pmap d st es
    exact sync_loop_cfg_of_entry prompt create emp pmap d false
      (fun st e => sync_entry_cfg_noninteractive prompt create emp pmap d st e) es st
  · intro prompt create emp pmap d i st es hp
    exact sync_loop_cfg_of_entry prompt create emp pmap d i
      (fun st e => sync_entry_cfg_prompt_none prompt create emp pmap d i st e hp) es st

/-- Witness for C9 amended: a concrete interactive run whose prompt never
supplies a mapping leaves the configuration unchanged. -/
theorem C9_witness :
    (sync_loop (fun _ => none) (fun _ => .ok ()) (PyVal.pyInt 0) [("p1", "P")]
        false true ⟨c2Cfg, [], SyncResult.empty⟩ [c2Entry, c5Run]).cfg = c2Cfg :=
  C9_mapping_read_only.2 (fun _ => none) (fun _ => .ok ()) (PyVal.pyInt 0)
    [("p1", "P")] false true ⟨c2Cfg, [], SyncResult.empty⟩ [c2Entry, c5Run]
    (fun _ => rfl)
theorem syncEntryCont_count (create : BambooTimeEntry → Except String Unit)
    (emp : PyVal) (d : Bool) (st : SyncState) (e : WorkLogSync.ClockifyTimeEntry)
    (k : String) (m : Option PMapDict) :
    outcomeCount (syncEntryCont create emp d st e k m).result =
      outcomeCount st.result + 1 := by
  simp only [syncEntryCont]
  repeat' split
  all_goals
    simp [outcomeCount, SyncResult.add_skip, SyncResult.add_success,
      SyncResult.add_failure, SyncResult.add_unmapped]
  all_goals omega

theorem sync_entry_count (prompt : String → Option PMapDict)
    (create : BambooTimeEntry → Except String Unit) (emp : PyVal)
    (pmap : List (String × String)) (d i : Bool) (st : SyncState)
    (e : WorkLogSync.ClockifyTimeEntry) :
    outcomeCount (sync_entry prompt create emp pmap d i st e).result =
      outcomeCount st.result + 1 := by
  simp only [sync_entry]
  repeat' split
  all_goals
    first
      | apply syncEntryCont_count
      | simp [outcomeCount, SyncResult.add_skip, SyncResult.add_success,
          SyncResult.add_failure, SyncResult.add_unmapped]
  all_goals omega

/-- C4: once per-entry processing has started, every input entry receives
exactly one terminal outcome — after the loop the sum of synced, skipped and
failed counts and the length of the unmapped list has grown by exactly the
number of entries processed — and processing one entry never aborts the
batch: the loop on a non-empty batch is exactly the loop on the remaining
entries from the successor state, whatever the first outcome (including a
failed creation), and the engine is a total function returning a result. -/
theorem C4_exactly_one_outcome :
    (∀ prompt create emp pmap d i st es,
        outcomeCount (sync_loop prompt create emp pmap d i st es).result =
          outcomeCount st.result + es.length)
    ∧ (∀ prompt create emp pmap d i st e es,
        sync_loop prompt create emp pmap d i st (e :: es) =
          sync_loop prompt create emp pmap d i
            (sync_entry prompt create emp pmap d i st e) es) := by
  constructor
  · intro prompt create emp pmap d i st es
    induction es generalizing st with
    | nil => simp [sync_loop]
    | cons e t ih =>
      have hstep : sync_loop prompt create emp pmap d i st (e :: t) =
          sync_loop prompt create emp pmap d i
            (sync_entry prompt create emp pmap d i st e) t := rfl
      rw [hstep, ih, sync_entry_count]
      simp [List.length_cons]
      omega
  · intro prompt create emp pmap d i st e es
    rfl
theorem sync_entry_resolved (prompt : String → Option PMapDict)
    (create : BambooTimeEntry → Except String Unit) (emp : PyVal)
    (pmap : List (String × String)) (d i : Bool) (st : SyncState)
    (e : WorkLogSync.ClockifyTimeEntry) (p name : String) (m : PMapDict)
    (h1 : e.project_id = some p) (h2 : (p == "") = false)
    (h3 : pmap.lookup p = some name)
    (h4 : st.cfg.should_skip (get_unmapped_key name (taskNameOf e)) = false)
    (h5 : st.cfg.get_mapping_for (get_unmapped_key name (taskNameOf e)) = some m)
    (h6 : m.isEmpty = false) :
    sync_entry prompt create emp pmap d i st e =
      syncEntryCont create emp d st e (get_unmapped_key name (taskNameOf e)) (some m) := by
  simp only [sync_entry, strOptFalsy, h1, Option.getD_some, h3, h4, h5, optFalsy, h6,
    Bool.false_and, Bool.false_eq_true, if_false, h2]

theorem syncEntryCont_dup (create : BambooTimeEntry → Except String Unit)
    (emp : PyVal) (d : Bool) (st : SyncState) (e : WorkLogSync.ClockifyTimeEntry)
    (k : String) (m : PMapDict)
    (h4 : st.cfg.should_skip k = false) (h6 : m.isEmpty = false)
    (h7 : pyTruthy (dictGet m "bamboo_project_id") = true)
    (h8 : (e.start_date, dictGet m "bamboo_project_id", dictGet m "bamboo_task_id",
            e.duration_hours) ∈ st.existing) :
    syncEntryCont create emp d st e k (some m) =
      { st with result := st.result.add_skip } := by
  simp only [syncEntryCont, optFalsy, h6, h4, Bool.or_self, Bool.false_eq_true, if_false,
    Option.getD_some, h7, Bool.not_true]
  rw [if_pos h8]

theorem syncEntryCont_create_ok (create : BambooTimeEntry → Except String Unit)
    (emp : PyVal) (st : SyncState) (e : WorkLogSync.ClockifyTimeEntry)
    (k : String) (m : PMapDict)
    (h4 : st.cfg.should_skip k = false) (h6 : m.isEmpty = false)
    (h7 : pyTruthy (dictGet m "bamboo_project_id") = true)
    (hv1 : intOrStr emp = true)
    (hv2 : intOrStr (dictGet m "bamboo_project_id") = true)
    (hv3 : intOrStr (dictGet m "bamboo_task_id") = true)
    (h8 : (e.start_date, dictGet m "bamboo_project_id", dictGet m "bamboo_task_id",
            e.duration_hours) ∉ st.existing)
    (hc : create ⟨emp, e.start_date, e.duration_hours, dictGet m "bamboo_project_id",
            dictGet m "bamboo_task_id", (e.description).getD ""⟩ = .ok ()) :
    syncEntryCont create emp false st e k (some m) =
      { st with
          existing := (e.start_date, dictGet m "bamboo_project_id",
            dictGet m "bamboo_task_id", e.duration_hours) :: st.existing
          result := st.result.add_success } := by
  simp only [syncEntryCont, optFalsy, h6, h4, Bool.or_self, Bool.false_eq_true, if_false,
    Option.getD_some, h7, Bool.not_true]
  rw [if_neg h8, mkBambooTimeEntry, if_pos (by rw [hv1, hv2, hv3]; rfl)]
  simp only [hc, Bool.false_eq_true, if_false]

theorem syncEntryCont_null_tid_fails (create : BambooTimeEntry → Except String Unit)
    (emp : PyVal) (d : Bool) (st : SyncState) (e : WorkLogSync.ClockifyTimeEntry)
    (k : String) (m : PMapDict)
    (h4 : st.cfg.should_skip k = false) (h6 : m.isEmpty = false)
    (h7 : pyTruthy (dictGet m "bamboo_project_id") = true)
    (hnull : dictGet m "bamboo_task_id" = PyVal.pyNone)
    (h8 : (e.start_date, dictGet m "bamboo_project_id", dictGet m "bamboo_task_id",
            e.duration_hours) ∉ st.existing) :
    syncEntryCont create emp d st e k (some m) =
      { st with result := st.result.add_failure validationErrorMsg } := by
  simp only [syncEntryCont, optFalsy, h6, h4, Bool.or_self, Bool.false_eq_true, if_false,
    Option.getD_some, h7, Bool.not_true]
  rw [if_neg h8, mkBambooTimeEntry, hnull, if_neg (by simp [intOrStr])]

theorem mkExistingKeys_no_null_component (fetched : List BambooTimeEntry)
    (dt : Date) (pid : PyVal) (q : ℚ) :
    (dt, pid, PyVal.pyNone, q) ∉ mkExistingKeys fetched := by
  intro h
  rw [mkExistingKeys] at h
  obtain ⟨e, _, he⟩ := List.mem_map.mp h
  have h3 := congrArg (fun k : DupKey => k.2.2.1) he
  simp at h3

/-- C3 corrected: in push mode a candidate whose computed key (date,
destination project id, destination task id, hours) is already present —
in particular present in the snapshot built from the fetched destination
entries, whose ids are passed through str() — is classified skipped before
any creation; after a successful creation (dry run off, and the ids passing
the int-or-str validation of BambooTimeEntry) the key is added to the
in-memory set, so the identical entry later in the same run is classified
skipped. A candidate with a null destination task id, however, never takes
part in deduplication: every component of a snapshot key is a string so its
key is never in the snapshot, and constructing the destination entry raises
a validation error that the per-entry handler records as failed, with no key
added. -/
theorem C3_duplicate_suppression :
    (∀ prompt create emp pmap d i (fetched : List BambooTimeEntry)
        (cfg : Config) (res : SyncResult) (e : WorkLogSync.ClockifyTimeEntry)
        (p name : String) (m : PMapDict),
        e.project_id = some p → (p == "") = false → pmap.lookup p = some name →
        cfg.should_skip (get_unmapped_key name (taskNameOf e)) = false →
        cfg.get_mapping_for (get_unmapped_key name (taskNameOf e)) = some m →
        m.isEmpty = false →
        pyTruthy (dictGet m "bamboo_project_id") = true →
        (e.start_date, dictGet m "bamboo_project_id", dictGet m "bamboo_task_id",
          e.duration_hours) ∈ mkExistingKeys fetched →
        sync_entry prompt create emp pmap d i ⟨cfg, mkExistingKeys fetched, res⟩ e =
          ⟨cfg, mkExistingKeys fetched, res.add_skip⟩)
    ∧ (∀ prompt create emp pmap i st (e : WorkLogSync.ClockifyTimeEntry)
        (p name : String) (m : PMapDict),
        e.project_id = some p → (p == "") = false → pmap.lookup p = some name →
        st.cfg.should_skip (get_unmapped_key name (taskNameOf e)) = false →
        st.cfg.get_mapping_for (get_unmapped_key name (taskNameOf e)) = some m →
        m.isEmpty = false →
        pyTruthy (dictGet m "bamboo_project_id") = true →
        intOrStr emp = true →
        intOrStr (dictGet m "bamboo_project_id") = true →
        intOrStr (dictGet m "bamboo_task_id") = true →
        (e.start_date, dictGet m "bamboo_project_id", dictGet m "bamboo_task_id",
          e.duration_hours) ∉ st.existing →
        create ⟨emp, e.start_date, e.duration_hours, dictGet m "bamboo_project_id",
          dictGet m "bamboo_task_id", (e.description).getD ""⟩ = .ok () →
        sync_entry prompt create emp pmap false i st e =
          { st with
              existing := (e.start_date, dictGet m "bamboo_project_id",
                dictGet m "bamboo_task_id", e.duration_hours) :: st.existing
              result := st.result.add_success } ∧
        sync_entry prompt create emp pmap false i
            { st with
                existing := (e.start_date, dictGet m "bamboo_project_id",
                  dictGet m "bamboo_task_id", e.duration_hours) :: st.existing
                result := st.result.add_success } e =
          { st with
              existing := (e.start_date, dictGet m "bamboo_project_id",
                dictGet m "bamboo_task_id", e.duration_hours) :: st.existing
              result := (st.result.add_success).add_skip })
    ∧ (∀ (fetched : List BambooTimeEntry) (dt : Date) (pid : PyVal) (q : ℚ),
        (dt, pid, PyVal.pyNone, q) ∉ mkExistingKeys fetched)
    ∧ (∀ prompt create emp pmap d i st (e : WorkLogSync.ClockifyTimeEntry)
        (p name : String) (m : PMapDict),
        e.project_id = some p → (p == "") = false → pmap.lookup p = some name →
        st.cfg.should_skip (get_unmapped_key name (taskNameOf e)) = false →
        st.cfg.get_mapping_for (get_unmapped_key name (taskNameOf e)) = some m →
        m.isEmpty = false →
        pyTruthy (dictGet m "bamboo_project_id") = true →
        dictGet m "bamboo_task_id" = PyVal.pyNone →
        (e.start_date, dictGet m "bamboo_project_id", dictGet m "bamboo_task_id",
          e.duration_hours) ∉ st.existing →
        sync_entry prompt create emp pmap d i st e =
          { st with result := st.result.add_failure validationErrorMsg }) := by
  refine ⟨?_, ?_, mkExistingKeys_no_null_component, ?_⟩
  · intro prompt create emp pmap d i fetched cfg res e p name m h1 h2 h3 h4 h5 h6 h7 h8
    exact (sync_entry_resolved prompt create emp pmap d i
      ⟨cfg, mkExistingKeys fetched, res⟩ e p name m h1 h2 h3 h4 h5 h6).trans
      (syncEntryCont_dup create emp d ⟨cfg, mkExistingKeys fetched, res⟩ e _ m
        h4 h6 h7 h8)
  · intro prompt create emp pmap i st e p name m h1 h2 h3 h4 h5 h6 h7 hv1 hv2 hv3 h8 hc
    constructor
    · exact (sync_entry_resolved prompt create emp pmap false i st e p name m
        h1 h2 h3 h4 h5 h6).trans
        (syncEntryCont_create_ok create emp st e _ m h4 h6 h7 hv1 hv2 hv3 h8 hc)
    · exact (sync_entry_resolved prompt create emp pmap false i
        { st with
            existing := (e.start_date, dictGet m "bamboo_project_id",
              dictGet m "bamboo_task_id", e.duration_hours) :: st.existing
            result := st.result.add_success } e p name m h1 h2 h3 h4 h5 h6).trans
        (syncEntryCont_dup create emp false
          { st with
              existing := (e.start_date, dictGet m "bamboo_project_id",
                dictGet m "bamboo_task_id", e.duration_hours) :: st.existing
              result := st.result.add_success } e _ m h4 h6 h7
          (List.mem_cons_self _ _))
  · intro prompt create emp pmap d i st e p name m h1 h2 h3 h4 h5 h6 h7 hnull h8
    exact (sync_entry_resolved prompt create emp pmap d i st e p name m
      h1 h2 h3 h4 h5 h6).trans
      (syncEntryCont_null_tid_fails create emp d st e _ m h4 h6 h7 hnull h8)

def c3M : PMapDict :=
  [("bamboo_project_id", PyVal.pyStr "10"), ("bamboo_task_id", PyVal.pyNone)]

def c3Cfg : Config := ⟨[("P", c3M)]⟩

def c3Entry : WorkLogSync.ClockifyTimeEntry :=
  ⟨"e1", some "Work", some "p1", none, ⟨2026, 2, 25⟩, true, 2⟩

def c3StB : SyncState := ⟨c3Cfg, [], SyncResult.empty⟩

def c3Fetched : List BambooTimeEntry :=
  [⟨PyVal.pyInt 7, ⟨2026, 2, 25⟩, 2, PyVal.pyStr "10", PyVal.pyStr "None", ""⟩]

/-- Counterexample to C3 as claimed: the null-task-id scenario of the claim
never plays out as skipped or synced. The candidate from a project-only
mapping (null destination task id) has a key that is not even in the
snapshot of a fetched destination entry with matching date, project and
hours (snapshot components are stringified), and processing it records the
entry failed — twice failed for two identical entries, with no key ever
added to the set — where the claim asserts synced then skipped. -/
theorem C3_counterexample :
    (⟨2026, 2, 25⟩, PyVal.pyStr "10", PyVal.pyNone, (2 : ℚ)) ∉ mkExistingKeys c3Fetched ∧
      (sync_entry (fun _ => none) (fun _ => .ok ()) (PyVal.pyInt 7) [("p1", "P")]
        false false c3StB c3Entry).result.entries_failed = 1 ∧
      (sync_entry (fun _ => none) (fun _ => .ok ()) (PyVal.pyInt 7) [("p1", "P")]
        false false c3StB c3Entry).result.entries_synced = 0 ∧
      (sync_entry (fun _ => none) (fun _ => .ok ()) (PyVal.pyInt 7) [("p1", "P")]
        false false c3StB c3Entry).result.entries_skipped = 0 ∧
      (sync_entry (fun _ => none) (fun _ => .ok ()) (PyVal.pyInt 7) [("p1", "P")]
        false false c3StB c3Entry).existing = [] ∧
      (sync_entry (fun _ => none) (fun _ => .ok ()) (PyVal.pyInt 7) [("p1", "P")]
          false false
          (sync_entry (fun _ => none) (fun _ => .ok ()) (PyVal.pyInt 7) [("p1", "P")]
            false false c3StB c3Entry)
          c3Entry).result.entries_failed = 2 := by
  refine ⟨by decide, by decide, by decide, by decide, by decide, by decide⟩

def c3MFull : PMapDict :=
  [("bamboo_project_id", PyVal.pyStr "10"), ("bamboo_task_id", PyVal.pyStr "24")]

def c3CfgFull : Config := ⟨[("P", c3MFull)]⟩

def c3FetchedB : List BambooTimeEntry :=
  [⟨PyVal.pyInt 7, ⟨2026, 2, 25⟩, 2, PyVal.pyStr "10", PyVal.pyStr "24", ""⟩]

def c3KeyStr : DupKey := (⟨2026, 2, 25⟩, PyVal.pyStr "10", PyVal.pyStr "24", 2)

def c3StFull : SyncState := ⟨c3CfgFull, [], SyncResult.empty⟩

def c3StDone : SyncState := ⟨c3CfgFull, [c3KeyStr], SyncResult.empty.add_success⟩

/-- Witness for C3 amended at concrete inputs: a candidate matching the
stringified snapshot key of a fetched destination entry is skipped; from an
empty set a successful creation adds the key and the identical entry is then
skipped; and the project-only (null task id) candidate is recorded failed. -/
theorem C3_witness :
    sync_entry (fun _ => none) (fun _ => .ok ()) (PyVal.pyInt 7) [("p1", "P")]
        false false ⟨c3CfgFull, mkExistingKeys c3FetchedB, SyncResult.empty⟩ c3Entry =
      ⟨c3CfgFull, mkExistingKeys c3FetchedB, SyncResult.empty.add_skip⟩ ∧
      sync_entry (fun _ => none) (fun _ => .ok ()) (PyVal.pyInt 7) [("p1", "P")]
          false false c3StFull c3Entry = c3StDone ∧
      sync_entry (fun _ => none) (fun _ => .ok ()) (PyVal.pyInt 7) [("p1", "P")]
          false false c3StDone c3Entry =
        { c3StDone with result := c3StDone.result.add_skip } ∧
      sync_entry (fun _ => none) (fun _ => .ok ()) (PyVal.pyInt 7) [("p1", "P")]
          false false c3StB c3Entry =
        { c3StB with result := SyncResult.empty.add_failure validationErrorMsg } :=
  ⟨C3_duplicate_suppression.1 (fun _ => none) (fun _ => .ok ()) (PyVal.pyInt 7)
      [("p1", "P")] false false c3FetchedB c3CfgFull SyncResult.empty c3Entry
      "p1" "P" c3MFull rfl (by decide) (by decide) (by decide) (by decide)
      (by decide) (by decide) (by decide),
    (C3_duplicate_suppression.2.1 (fun _ => none) (fun _ => .ok ()) (PyVal.pyInt 7)
      [("p1", "P")] false c3StFull c3Entry "p1" "P" c3MFull rfl (by decide)
      (by decide) (by decide) (by decide) (by decide) (by decide) (by decide)
      (by decide) (by decide) (by decide) rfl).1,
    (C3_duplicate_suppression.2.1 (fun _ => none) (fun _ => .ok ()) (PyVal.pyInt 7)
      [("p1", "P")] false c3StFull c3Entry "p1" "P" c3MFull rfl (by decide)
      (by decide) (by decide) (by decide) (by decide) (by decide) (by decide)
      (by decide) (by decide) (by decide) rfl).2,
    C3_duplicate_suppression.2.2.2 (fun _ => none) (fun _ => .ok ()) (PyVal.pyInt 7)
      [("p1", "P")] false false c3StB c3Entry "p1" "P" c3M rfl (by decide)
      (by decide) (by decide) (by decide) (by decide) (by decide) (by decide)
      (by decide)⟩

theorem charEq_of_toNat_eq {a b : Char} (h : a.toNat = b.toNat) : a = b :=
  Char.ext (UInt32.ext h)

theorem charListLt_asymm : ∀ l1 l2 : List Char,
    charListLt l1 l2 = true → charListLt l2 l1 = false := by
  intro l1
  induction l1 with
  | nil =>
    intro l2 h
    cases l2 with
    | nil => rfl
    | cons b bs => rfl
  | cons a as ih =>
    intro l2 h
    cases l2 with
    | nil => simp [charListLt] at h
    | cons b bs =>
      simp only [charListLt] at h ⊢
      by_cases g1 : a.toNat < b.toNat
      · rw [if_neg (by omega), if_pos g1]
      · rw [if_neg g1] at h
        by_cases g2 : b.toNat < a.toNat
        · rw [if_pos g2] at h
          exact absurd h (by simp)
        · rw [if_neg g2] at h
          rw [if_neg g2, if_neg g1]
          exact ih bs h

theorem charListLt_connex : ∀ l1 l2 : List Char,
    charListLt l1 l2 = false → charListLt l2 l1 = false → l1 = l2 := by
  intro l1
  induction l1 with
  | nil =>
    intro l2 h1 _
    cases l2 with
    | nil => rfl
    | cons b bs => simp [charListLt] at h1
  | cons a as ih =>
    intro l2 h1 h2
    cases l2 with
    | nil => simp [charListLt] at h2
    | cons b bs =>
      simp only [charListLt] at h1 h2
      by_cases g1 : a.toNat < b.toNat
      · rw [if_pos g1] at h1
        exact absurd h1 (by simp)
      · by_cases g2 : b.toNat < a.toNat
        · rw [if_pos g2] at h2
          exact absurd h2 (by simp)
        · rw [if_neg g1, if_neg g2] at h1
          rw [if_neg g2, if_neg g1] at h2
          have hab : a = b := charEq_of_toNat_eq (by omega)
          rw [hab, ih bs h1 h2]

theorem charListLt_trans : ∀ l1 l2 l3 : List Char, charListLt l1 l2 = true →
    charListLt l2 l3 = true → charListLt l1 l3 = true := by
  intro l1
  induction l1 with
  | nil =>
    intro l2 l3 h12 h23
    cases l2 with
    | nil => exact absurd h12 (by simp [charListLt])
    | cons b bs =>
      cases l3 with
      | nil => simp [charListLt] at h23
      | cons c cs => rfl
  | cons a as ih =>
    intro l2 l3 h12 h23
    cases l2 with
    | nil => simp [charListLt] at h12
    | cons b bs =>
      cases l3 with
      | nil => simp [charListLt] at h23
      | cons c cs =>
        simp only [charListLt] at h12 h23 ⊢
        by_cases gab : a.toNat < b.toNat <;> by_cases gbc : b.toNat < c.toNat
        · rw [if_pos (by omega)]
        · rw [if_neg gbc] at h23
          by_cases gcb : c.toNat < b.toNat
          · rw [if_pos gcb] at h23
            exact absurd h23 (by simp)
          · rw [if_pos (by omega)]
        · rw [if_neg gab] at h12
          by_cases gba : b.toNat < a.toNat
          · rw [if_pos gba] at h12
            exact absurd h12 (by simp)
          · rw [if_pos (by omega)]
        · rw [if_neg gab] at h12
          rw [if_neg gbc] at h23
          by_cases gba : b.toNat < a.toNat
          · rw [if_pos gba] at h12
            exact absurd h12 (by simp)
          · by_cases gcb : c.toNat < b.toNat
            · rw [if_pos gcb] at h23
              exact absurd h23 (by simp)
            · rw [if_neg gba] at h12
              rw [if_neg gcb] at h23
              rw [if_neg (by omega), if_neg (by omega)]
              exact ih bs cs h12 h23

theorem strLtB_of_le_false {a b : String} (h1 : strLtB b a = false)
    (h2 : strLtB c b = false) : strLtB c a = false := by
  unfold strLtB at *
  rcases Bool.eq_false_or_eq_true (charListLt a.data b.data) with hab | hab
  · rcases Bool.eq_false_or_eq_true (charListLt c.data a.data) with hca | hca
    · have hcb := charListLt_trans _ _ _ hca hab
      rw [h2] at hcb
      exact absurd hcb (by simp)
    · exact hca
  · have hda : a.data = b.data := charListLt_connex _ _ hab h1
    rw [hda]
    exact h2

theorem Date.ltB_iff (a b : Date) : Date.ltB a b = true ↔
    (a.year < b.year ∨ (a.year = b.year ∧
      (a.month < b.month ∨ (a.month = b.month ∧ a.day < b.day)))) := by
  simp [Date.ltB, Bool.or_eq_true, Bool.and_eq_true, decide_eq_true_eq, beq_iff_eq]

theorem Date.ltB_trans {a b c : Date} (h1 : Date.ltB a b = true)
    (h2 : Date.ltB b c = true) : Date.ltB a c = true := by
  rw [Date.ltB_iff] at h1 h2 ⊢
  omega

theorem Date.eq_of_not_ltB {a b : Date} (h1 : Date.ltB a b = false)
    (h2 : Date.ltB b a = false) : a = b := by
  have k1 : ¬ Date.ltB a b = true := by rw [h1]; simp
  have k2 : ¬ Date.ltB b a = true := by rw [h2]; simp
  rw [Date.ltB_iff] at k1 k2
  cases a
  cases b
  simp only [Date.mk.injEq]
  simp only at k1 k2
  omega

theorem keyLe_total (a b : ExportEntry) : keyLe a b = true ∨ keyLe b a = true := by
  unfold keyLe
  rcases Bool.eq_false_or_eq_true (Date.ltB a.date b.date) with h1 | h1
  · left
    simp [h1]
  · rcases Bool.eq_false_or_eq_true (Date.ltB b.date a.date) with h2 | h2
    · right
      simp [h2]
    · have hde : a.date = b.date := Date.eq_of_not_ltB h1 h2
      rcases Bool.eq_false_or_eq_true (strLtB b.start a.start) with hs | hs
      · right
        have hs2 : strLtB a.start b.start = false := charListLt_asymm _ _ hs
        simp [strLeB, hs2, hde]
      · left
        simp [strLeB, hs, hde]

theorem keyLe_trans (a b c : ExportEntry) (h1 : keyLe a b = true)
    (h2 : keyLe b c = true) : keyLe a c = true := by
  unfold keyLe at h1 h2 ⊢
  rw [Bool.or_eq_true] at h1 h2 ⊢
  rcases h1 with hd1 | hs1 <;> rcases h2 with hd2 | hs2
  · exact Or.inl (Date.ltB_trans hd1 hd2)
  · rw [Bool.and_eq_true, beq_iff_eq] at hs2
    rw [← hs2.1]
    exact Or.inl hd1
  · rw [Bool.and_eq_true, beq_iff_eq] at hs1
    rw [hs1.1]
    exact Or.inl hd2
  · rw [Bool.and_eq_true, beq_iff_eq] at hs1 hs2
    refine Or.inr ?_
    rw [Bool.and_eq_true, beq_iff_eq]
    refine ⟨hs1.1.trans hs2.1, ?_⟩
    have k1 : strLtB b.start a.start = false := by
      have := hs1.2
      rw [strLeB, Bool.not_eq_true'] at this
      exact this
    have k2 : strLtB c.start b.start = false := by
      have := hs2.2
      rw [strLeB, Bool.not_eq_true'] at this
      exact this
    rw [strLeB, Bool.not_eq_true']
    exact strLtB_of_le_false k1 k2

theorem mem_orderedInsert (a x : ExportEntry) :
    ∀ l : List ExportEntry, x ∈ orderedInsert a l → x = a ∨ x ∈ l := by
  intro l
  induction l with
  | nil =>
    intro h
    simp [orderedInsert] at h
    exact Or.inl h
  | cons b t ih =>
    intro h
    rw [orderedInsert] at h
    by_cases hc : keyLe a b = true
    · rw [if_pos hc] at h
      rcases List.mem_cons.mp h with h | h
      · exact Or.inl h
      · exact Or.inr h
    · rw [if_neg hc] at h
      rcases List.mem_cons.mp h with h | h
      · exact Or.inr (h ▸ List.mem_cons_self b t)
      · rcases ih h with h | h
        · exact Or.inl h
        · exact Or.inr (List.mem_cons_of_mem b h)

theorem orderedInsert_pairwise (a : ExportEntry) :
    ∀ l : List ExportEntry, List.Pairwise keyLeP l →
      List.Pairwise keyLeP (orderedInsert a l) := by
  intro l
  induction l with
  | nil =>
    intro _
    simp [orderedInsert, keyLeP]
  | cons b t ih =>
    intro h
    rw [List.pairwise_cons] at h
    obtain ⟨hb, ht⟩ := h
    rw [orderedInsert]
    by_cases hc : keyLe a b = true
    · rw [if_pos hc]
      rw [List.pairwise_cons]
      refine ⟨?_, List.pairwise_cons.mpr ⟨hb, ht⟩⟩
      intro x hx
      rcases List.mem_cons.mp hx with rfl | hx
      · exact hc
      · exact keyLe_trans a b x hc (hb x hx)
    · rw [if_neg hc]
      rw [List.pairwise_cons]
      refine ⟨?_, ih ht⟩
      intro x hx
      rcases mem_orderedInsert a x t hx with rfl | hx
      · rcases keyLe_total x b with h | h
        · exact absurd h hc
        · exact h
      · exact hb x hx

theorem sortEntries_pairwise : ∀ l : List ExportEntry,
    List.Pairwise keyLeP (sortEntries l) := by
  intro l
  induction l with
  | nil => exact List.Pairwise.nil
  | cons a t ih => exact orderedInsert_pairwise a (sortEntries t) ih

theorem keyLe_congr_right {x y : ExportEntry} (hd : x.date = y.date)
    (hs : x.start = y.start) (z : ExportEntry) : keyLe z x = keyLe z y := by
  rw [keyLe, keyLe, hd, hs]

theorem mergeLoop_key_mem :
    ∀ (rest : List ExportEntry) (last x : ExportEntry), x ∈ mergeLoop last rest →
      ∃ y, (y = last ∨ y ∈ rest) ∧ x.date = y.date ∧ x.start = y.start := by
  intro rest
  induction rest with
  | nil =>
    intro last x hx
    simp [mergeLoop] at hx
    exact ⟨last, Or.inl rfl, by rw [hx], by rw [hx]⟩
  | cons b r ih =>
    intro last x hx
    rw [mergeLoop] at hx
    by_cases h : canMerge last b = true
    · rw [if_pos h] at hx
      obtain ⟨y, hy, hd, hs⟩ := ih (mergeTwo last b) x hx
      rcases hy with rfl | hy
      · exact ⟨last, Or.inl rfl, hd, hs⟩
      · exact ⟨y, Or.inr (List.mem_cons_of_mem b hy), hd, hs⟩
    · rw [if_neg h] at hx
      rcases List.mem_cons.mp hx with rfl | hx
      · exact ⟨x, Or.inl rfl, rfl, rfl⟩
      · obtain ⟨y, hy, hd, hs⟩ := ih b x hx
        rcases hy with rfl | hy
        · exact ⟨y, Or.inr (List.mem_cons_self y r), hd, hs⟩
        · exact ⟨y, Or.inr (List.mem_cons_of_mem b hy), hd, hs⟩

theorem mergeLoop_pairwise :
    ∀ (rest : List ExportEntry) (last : ExportEntry),
      List.Pairwise keyLeP (last :: rest) →
        List.Pairwise keyLeP (mergeLoop last rest) := by
  intro rest
  induction rest with
  | nil =>
    intro last _
    simp [mergeLoop, keyLeP]
  | cons b r ih =>
    intro last h
    rw [List.pairwise_cons] at h
    obtain ⟨hlast, hbr⟩ := h
    rw [mergeLoop]
    by_cases hm : canMerge last b = true
    · rw [if_pos hm]
      apply ih (mergeTwo last b)
      rw [List.pairwise_cons]
      refine ⟨?_, (List.pairwise_cons.mp hbr).2⟩
      intro x hx
      exact hlast x (List.mem_cons_of_mem b hx)
    · rw [if_neg hm]
      rw [List.pairwise_cons]
      refine ⟨?_, ih b hbr⟩
      intro x hx
      obtain ⟨y, hy, hd, hs⟩ := mergeLoop_key_mem r b x hx
      have hly : keyLeP last y := by
        rcases hy with rfl | hy
        · exact hlast y (List.mem_cons_self y r)
        · exact hlast y (List.mem_cons_of_mem b hy)
      rw [keyLeP, keyLe_congr_right hd hs]
      exact hly

theorem mergeAdjacent_pairwise (l : List ExportEntry)
    (h : List.Pairwise keyLeP l) : List.Pairwise keyLeP (mergeAdjacent l) := by
  cases l with
  | nil => exact List.Pairwise.nil
  | cons e rest => exact mergeLoop_pairwise rest e h

/-- C10: for every input, the entries of the export result are sorted
nondecreasingly by the (date, start) key: the pre-merge insertion sort
establishes the order and the merge loop only extends the last output entry
in place (keeping its date and start) or appends, so the final output order
is preserved. -/
theorem C10_entries_sorted :
    ∀ (tes : List ClockifyExport.ClockifyTimeEntry)
      (pn tn : List (String × String)) (mp : MappingConfig)
      (tz : DateTime → DateTime),
      List.Pairwise keyLeP (build_export tes pn tn mp tz).entries := by
  intro tes pn tn mp tz
  exact mergeAdjacent_pairwise _ (sortEntries_pairwise _)
